import Mathlib

/-!
Shallow embedding of the `SurveyChain_FHE` Solidity contract
(confidential survey tool): survey registry, one-response-per-principal
ledger, homomorphic accumulation, and the two-phase aggregate/verify
state machine.

Modelling choices:
* `Ct` is the opaque ciphertext type (`euint32`); the FHE library is an
  abstract adapter record (`FHEAdapter`).  `euint32(0)` — the
  uninitialized handle a fresh survey stores — is `zeroHandle`.
* Solidity mappings are total functions with the Solidity default value
  (empty title, zeroed result record, `false` participation flag).
* Addresses, timestamps and byte strings are `Nat` / `List Nat`;
  `uint32` casts are explicit `% 2 ^ 32`.
* Every external function returns `Option Err × State`: the error (or
  `none` on success) together with the post-state, translated in the
  source statement order, so a failing `require` returns before any
  write, exactly as in the contract.
-/

namespace SurveyChain

/-- Error kinds of the engine, one per distinct `require` / failure path. -/
inductive Err where
  | AlreadyExists
  | NotFound
  | Inactive
  | DuplicateResponse
  | InvalidCiphertext
  | NoResponses
  | AlreadyVerified
  | ProofInvalid
  | MismatchedClaim
deriving DecidableEq, Repr

/-- Abstract FHE / ciphertext adapter: the operations the contract uses from
the `FHE` library.  `fromExternal` validates an external ciphertext against
its input proof (`none` = invalid); `checkSignatures` is the decryption-proof
verifier; `decodeU32` is `abi.decode(bytes, uint32)`. -/
structure FHEAdapter (Ct : Type) where
  zeroHandle : Ct
  fromExternal : Nat → List Nat → Option Ct
  add : Ct → Ct → Ct
  decrypt : Ct → Nat
  checkSignatures : Ct → List Nat → List Nat → Bool
  decodeU32 : List Nat → Nat

/-- The `Survey` struct of the contract. -/
structure Survey (Ct : Type) where
  title : String
  encryptedResponse : Ct
  participantCount : Nat
  questionCount : Nat
  creator : Nat
  createdAt : Nat
  isActive : Bool
deriving DecidableEq

/-- The `AggregationResult` struct of the contract. -/
structure AggregationResult where
  sum : Nat
  count : Nat
  isVerified : Bool
deriving DecidableEq, Repr

/-- Whole contract storage: the three mappings and the id array. -/
structure ContractState (Ct : Type) where
  surveys : String → Survey Ct
  results : String → AggregationResult
  hasResponded : String → Nat → Bool
  surveyIds : List String

/-- Solidity default value of the `Survey` struct (what an absent mapping
key reads as). -/
def defaultSurvey (A : FHEAdapter Ct) : Survey Ct :=
  { title := ""
    encryptedResponse := A.zeroHandle
    participantCount := 0
    questionCount := 0
    creator := 0
    createdAt := 0
    isActive := false }

/-- Contract storage right after deployment: all mappings at their default
values, empty id array. -/
def initialState (A : FHEAdapter Ct) : ContractState Ct :=
  { surveys := fun _ => defaultSurvey A
    results := fun _ => { sum := 0, count := 0, isVerified := false }
    hasResponded := fun _ _ => false
    surveyIds := [] }

/-- Point update of the `surveys` mapping. -/
def ContractState.setSurvey (σ : ContractState Ct) (id : String) (s : Survey Ct) :
    ContractState Ct :=
  { σ with surveys := fun k => if k = id then s else σ.surveys k }

/-- Point update of the `results` mapping. -/
def ContractState.setResult (σ : ContractState Ct) (id : String) (r : AggregationResult) :
    ContractState Ct :=
  { σ with results := fun k => if k = id then r else σ.results k }

/-- Set `hasResponded[id][p] := true`. -/
def ContractState.setResponded (σ : ContractState Ct) (id : String) (p : Nat) :
    ContractState Ct :=
  { σ with hasResponded := fun k q => if k = id ∧ q = p then true else σ.hasResponded k q }

@[simp] theorem setSurvey_surveys (σ : ContractState Ct) (id : String) (s : Survey Ct) (k) :
    (σ.setSurvey id s).surveys k = if k = id then s else σ.surveys k := rfl

@[simp] theorem setSurvey_results (σ : ContractState Ct) (id : String) (s : Survey Ct) :
    (σ.setSurvey id s).results = σ.results := rfl

@[simp] theorem setSurvey_hasResponded (σ : ContractState Ct) (id : String) (s : Survey Ct) :
    (σ.setSurvey id s).hasResponded = σ.hasResponded := rfl

@[simp] theorem setSurvey_surveyIds (σ : ContractState Ct) (id : String) (s : Survey Ct) :
    (σ.setSurvey id s).surveyIds = σ.surveyIds := rfl

@[simp] theorem setResult_results (σ : ContractState Ct) (id : String) (r : AggregationResult) (k) :
    (σ.setResult id r).results k = if k = id then r else σ.results k := rfl

@[simp] theorem setResult_surveys (σ : ContractState Ct) (id : String) (r : AggregationResult) :
    (σ.setResult id r).surveys = σ.surveys := rfl

@[simp] theorem setResult_hasResponded (σ : ContractState Ct) (id : String) (r : AggregationResult) :
    (σ.setResult id r).hasResponded = σ.hasResponded := rfl

@[simp] theorem setResult_surveyIds (σ : ContractState Ct) (id : String) (r : AggregationResult) :
    (σ.setResult id r).surveyIds = σ.surveyIds := rfl

@[simp] theorem setResponded_hasResponded (σ : ContractState Ct) (id : String) (p : Nat) (k q) :
    (σ.setResponded id p).hasResponded k q =
      if k = id ∧ q = p then true else σ.hasResponded k q := rfl

@[simp] theorem setResponded_surveys (σ : ContractState Ct) (id : String) (p : Nat) :
    (σ.setResponded id p).surveys = σ.surveys := rfl

@[simp] theorem setResponded_results (σ : ContractState Ct) (id : String) (p : Nat) :
    (σ.setResponded id p).results = σ.results := rfl

@[simp] theorem setResponded_surveyIds (σ : ContractState Ct) (id : String) (p : Nat) :
    (σ.setResponded id p).surveyIds = σ.surveyIds := rfl

/-- `createSurvey(surveyId, title, questionCount)` — reverts with
`AlreadyExists` when `bytes(surveys[surveyId].title).length != 0`; otherwise
stores a fresh `Survey` (zero ciphertext handle, zero participants, active)
and pushes the id onto `surveyIds`.  `sender` is `msg.sender`, `timestamp`
is `block.timestamp`. -/
def createSurvey (A : FHEAdapter Ct) (σ : ContractState Ct) (surveyId title : String)
    (questionCount : Nat) (sender timestamp : Nat) : Option Err × ContractState Ct :=
  if (σ.surveys surveyId).title ≠ "" then (some .AlreadyExists, σ)
  else
    let σ1 := σ.setSurvey surveyId
      { title := title
        encryptedResponse := A.zeroHandle
        participantCount := 0
        questionCount := questionCount
        creator := sender
        createdAt := timestamp
        isActive := true }
    (none, { σ1 with surveyIds := σ1.surveyIds ++ [surveyId] })

/-- `submitResponse(surveyId, encryptedResponse, inputProof)` — requires the
survey to exist, be active, the sender not to have responded, and the
external ciphertext to validate; then the accumulator is set (first
response) or homomorphically added to, the participant count incremented and
the participation flag set. -/
def submitResponse (A : FHEAdapter Ct) (σ : ContractState Ct) (surveyId : String)
    (encryptedResponse : Nat) (inputProof : List Nat) (sender : Nat) :
    Option Err × ContractState Ct :=
  if (σ.surveys surveyId).title = "" then (some .NotFound, σ)
  else if (σ.surveys surveyId).isActive = false then (some .Inactive, σ)
  else if σ.hasResponded surveyId sender = true then (some .DuplicateResponse, σ)
  else
    match A.fromExternal encryptedResponse inputProof with
    | none => (some .InvalidCiphertext, σ)
    | some encryptedValue =>
      let s := σ.surveys surveyId
      let newAcc := if s.participantCount = 0 then encryptedValue
                    else A.add s.encryptedResponse encryptedValue
      let σ1 := σ.setSurvey surveyId
        { s with encryptedResponse := newAcc, participantCount := s.participantCount + 1 }
      (none, σ1.setResponded surveyId sender)

/-- `aggregateResults(surveyId)` — requires existence, activity, at least one
response and an unverified result record; decrypts the accumulator via the
oracle and stores `AggregationResult(sum, uint32(participantCount), false)`,
overwriting any prior record.  The `uint32` cast is the explicit
`% 2 ^ 32`. -/
def aggregateResults (A : FHEAdapter Ct) (σ : ContractState Ct) (surveyId : String) :
    Option Err × ContractState Ct :=
  if (σ.surveys surveyId).title = "" then (some .NotFound, σ)
  else if (σ.surveys surveyId).isActive = false then (some .Inactive, σ)
  else if (σ.surveys surveyId).participantCount = 0 then (some .NoResponses, σ)
  else if (σ.results surveyId).isVerified = true then (some .AlreadyVerified, σ)
  else
    (none, σ.setResult surveyId
      { sum := A.decrypt (σ.surveys surveyId).encryptedResponse
        count := (σ.surveys surveyId).participantCount % 2 ^ 32
        isVerified := false })

/-- `verifyResults(surveyId, abiEncodedClearValue, decryptionProof)` —
requires existence and an unverified result; checks the decryption proof
against the current accumulator (`ProofInvalid` on failure), compares the
decoded clear value with the stored claimed sum (`MismatchedClaim` on
disagreement), then marks the result verified and deactivates the
survey. -/
def verifyResults (A : FHEAdapter Ct) (σ : ContractState Ct) (surveyId : String)
    (abiEncodedClearValue decryptionProof : List Nat) : Option Err × ContractState Ct :=
  if (σ.surveys surveyId).title = "" then (some .NotFound, σ)
  else if (σ.results surveyId).isVerified = true then (some .AlreadyVerified, σ)
  else if A.checkSignatures (σ.surveys surveyId).encryptedResponse
            abiEncodedClearValue decryptionProof = false then (some .ProofInvalid, σ)
  else if A.decodeU32 abiEncodedClearValue ≠ (σ.results surveyId).sum then
    (some .MismatchedClaim, σ)
  else
    let σ1 := σ.setResult surveyId { σ.results surveyId with isVerified := true }
    (none, σ1.setSurvey surveyId { σ1.surveys surveyId with isActive := false })

/-- `getSurvey(surveyId)` view — `NotFound` for an absent survey, otherwise
the stored record's fields. -/
def getSurvey (σ : ContractState Ct) (surveyId : String) :
    Except Err (String × Nat × Nat × Nat × Nat × Bool) :=
  if (σ.surveys surveyId).title = "" then .error .NotFound
  else
    .ok ((σ.surveys surveyId).title,
         (σ.surveys surveyId).participantCount,
         (σ.surveys surveyId).questionCount,
         (σ.surveys surveyId).creator,
         (σ.surveys surveyId).createdAt,
         (σ.surveys surveyId).isActive)

/-- `getResults(surveyId)` view — `NotFound` for an absent survey, otherwise
the stored (possibly default) aggregation record. -/
def getResults (σ : ContractState Ct) (surveyId : String) :
    Except Err (Nat × Nat × Bool) :=
  if (σ.surveys surveyId).title = "" then .error .NotFound
  else
    .ok ((σ.results surveyId).sum, (σ.results surveyId).count,
         (σ.results surveyId).isVerified)

/-- `getAllSurveyIds()` view. -/
def getAllSurveyIds (σ : ContractState Ct) : List String := σ.surveyIds

/-- `hasUserResponded(surveyId, user)` view — reads the mapping directly,
with no existence check. -/
def hasUserResponded (σ : ContractState Ct) (surveyId : String) (user : Nat) : Bool :=
  σ.hasResponded surveyId user

/-- One externally-triggered transaction of the contract (any arguments,
successful or reverted — a reverted call leaves the state unchanged, which
the failure branches realise by returning the pre-state). -/
inductive Step (A : FHEAdapter Ct) : ContractState Ct → ContractState Ct → Prop where
  | create (σ : ContractState Ct) (id title : String) (qc sender ts : Nat) :
      Step A σ (createSurvey A σ id title qc sender ts).2
  | submit (σ : ContractState Ct) (id : String) (e : Nat) (p : List Nat) (sender : Nat) :
      Step A σ (submitResponse A σ id e p sender).2
  | aggregate (σ : ContractState Ct) (id : String) :
      Step A σ (aggregateResults A σ id).2
  | verify (σ : ContractState Ct) (id : String) (clear proof : List Nat) :
      Step A σ (verifyResults A σ id clear proof).2

/-- States reachable from deployment by any sequence of transactions. -/
inductive Reachable (A : FHEAdapter Ct) : ContractState Ct → Prop where
  | init : Reachable A (initialState A)
  | step {σ σ' : ContractState Ct} : Reachable A σ → Step A σ σ' → Reachable A σ'

/-- A concrete instantiation of the adapter used for executable witnesses:
ciphertexts are naturals, `add` is addition, a proof is valid iff it is
`[1]`, the decryption-proof check accepts exactly the true (mod `2 ^ 32`)
plaintext, and decoding reads the head of the byte list. -/
def natFHE : FHEAdapter Nat :=
  { zeroHandle := 0
    fromExternal := fun e p => if p = [1] then some e else none
    add := fun a b => a + b
    decrypt := fun c => c % 2 ^ 32
    checkSignatures := fun c clear proof =>
      decide (proof = [1] ∧ clear = [c % 2 ^ 32])
    decodeU32 := fun clear => clear.headD 0 }

/-- Concrete execution trace over `natFHE`: deploy, create survey `"s"`. -/
def trState1 : ContractState Nat :=
  (createSurvey natFHE (initialState natFHE) "s" "t" 1 7 0).2

/-- Trace, step 2: principal `7` submits ciphertext `5` with the valid
proof. -/
def trState2 : ContractState Nat :=
  (submitResponse natFHE trState1 "s" 5 [1] 7).2

/-- Trace, step 3: aggregation of survey `"s"` (sum 5, count 1). -/
def trState3 : ContractState Nat :=
  (aggregateResults natFHE trState2 "s").2

/-- Trace, step 4: verification of survey `"s"` with the matching clear
value `[5]` and the valid proof. -/
def trState4 : ContractState Nat :=
  (verifyResults natFHE trState3 "s" [5] [1]).2

/-- Claim C1 (counterexample): the existence check of `createSurvey` is
`title != ""`, so an id created with an empty title is registered (appended
to `surveyIds`) yet a second `createSurvey` for the same id succeeds instead
of failing with `AlreadyExists`, duplicating the id in the enumerable
list — identifiers are not globally unique. -/
theorem create_emptyTitle_breaks_uniqueness :
    (createSurvey natFHE (initialState natFHE) "s" "" 0 7 0).1 = none ∧
    (createSurvey natFHE (initialState natFHE) "s" "" 0 7 0).2.surveyIds = ["s"] ∧
    (createSurvey natFHE
        (createSurvey natFHE (initialState natFHE) "s" "" 0 7 0).2 "s" "t" 1 8 1).1 = none ∧
    (createSurvey natFHE
        (createSurvey natFHE (initialState natFHE) "s" "" 0 7 0).2
        "s" "t" 1 8 1).2.surveyIds = ["s", "s"] := by decide

/-- Claim C1 (amended): `createSurvey` fails with `AlreadyExists` iff the
survey stored at `id` has a nonempty title (an id registered with an empty
title is not detected); on success it inserts a Survey with `isActive=true`,
`participantCount=0`, the zero (absent) accumulator handle, appends `id` to
the identifier list and touches no other record. -/
theorem createSurvey_characterization {Ct : Type} (A : FHEAdapter Ct) (σ : ContractState Ct)
    (id title : String) (qc sender ts : Nat) :
    ((createSurvey A σ id title qc sender ts).1 = some Err.AlreadyExists ↔
      (σ.surveys id).title ≠ "") ∧
    ((createSurvey A σ id title qc sender ts).1 = none ↔ (σ.surveys id).title = "") ∧
    ((σ.surveys id).title = "" →
      (createSurvey A σ id title qc sender ts).2.surveys id =
        { title := title, encryptedResponse := A.zeroHandle, participantCount := 0,
          questionCount := qc, creator := sender, createdAt := ts, isActive := true } ∧
      (createSurvey A σ id title qc sender ts).2.surveyIds = σ.surveyIds ++ [id] ∧
      (∀ k, k ≠ id → (createSurvey A σ id title qc sender ts).2.surveys k = σ.surveys k) ∧
      (createSurvey A σ id title qc sender ts).2.results = σ.results ∧
      (createSurvey A σ id title qc sender ts).2.hasResponded = σ.hasResponded) := by
  by_cases h : (σ.surveys id).title = ""
  · refine ⟨by simp [createSurvey, h], by simp [createSurvey, h], fun _ => ?_⟩
    refine ⟨by simp [createSurvey, h], by simp [createSurvey, h], ?_,
      by simp [createSurvey, h], by simp [createSurvey, h]⟩
    intro k hk
    simp [createSurvey, h, hk]
  · exact ⟨by simp [createSurvey, h], by simp [createSurvey, h], fun hc => absurd hc h⟩

/-- Claim C1 (witness): the amended characterization applied at the initial
state. -/
theorem createSurvey_characterization_instance :
    (createSurvey natFHE (initialState natFHE) "s" "t" 1 7 0).1 = none ∧
    (createSurvey natFHE (initialState natFHE) "s" "t" 1 7 0).2.surveyIds =
      (initialState natFHE).surveyIds ++ ["s"] := by
  have h := createSurvey_characterization natFHE (initialState natFHE) "s" "t" 1 7 0
  exact ⟨h.2.1.mpr (by decide), (h.2.2 (by decide)).2.1⟩

/-- Claim C7: every failing call of any of the four mutating entry points
returns the pre-call state unchanged — all validation precedes every
write. -/
theorem failure_leaves_state_unchanged {Ct : Type} (A : FHEAdapter Ct)
    (σ : ContractState Ct) :
    (∀ id title qc sender ts, (createSurvey A σ id title qc sender ts).1.isSome = true →
        (createSurvey A σ id title qc sender ts).2 = σ) ∧
    (∀ id e p sender, (submitResponse A σ id e p sender).1.isSome = true →
        (submitResponse A σ id e p sender).2 = σ) ∧
    (∀ id, (aggregateResults A σ id).1.isSome = true → (aggregateResults A σ id).2 = σ) ∧
    (∀ id clear proof, (verifyResults A σ id clear proof).1.isSome = true →
        (verifyResults A σ id clear proof).2 = σ) := by
  refine ⟨fun id title qc sender ts => ?_, fun id e p sender => ?_,
    fun id => ?_, fun id clear proof => ?_⟩
  · unfold createSurvey
    split <;> simp
  · unfold submitResponse
    split
    · simp
    · split
      · simp
      · split
        · simp
        · split
          · simp
          · simp
  · unfold aggregateResults
    split
    · simp
    · split
      · simp
      · split
        · simp
        · split
          · simp
          · simp
  · unfold verifyResults
    split
    · simp
    · split
      · simp
      · split
        · simp
        · split
          · simp
          · simp

/-- Claim C7 (witness): concrete failing calls of all four entry points
leave the concrete state untouched. -/
theorem failure_leaves_state_unchanged_instance :
    (createSurvey natFHE trState1 "s" "u" 2 9 3).2 = trState1 ∧
    (submitResponse natFHE trState1 "x" 5 [1] 7).2 = trState1 ∧
    (aggregateResults natFHE trState1 "x").2 = trState1 ∧
    (verifyResults natFHE trState1 "x" [0] [1]).2 = trState1 := by
  have h := failure_leaves_state_unchanged natFHE trState1
  exact ⟨h.1 "s" "u" 2 9 3 (by decide), h.2.1 "x" 5 [1] 7 (by decide),
    h.2.2.1 "x" (by decide), h.2.2.2 "x" [0] [1] (by decide)⟩

/-- Claim C4: an accepted `submitResponse` on an existing active survey
validates the ciphertext, sets the accumulator to it when it is the first
response and otherwise to the adapter's homomorphic sum with the existing
accumulator, marks the sender as having responded, and increments the
participant count by one. -/
theorem submitResponse_accumulates {Ct : Type} (A : FHEAdapter Ct) (σ : ContractState Ct)
    (id : String) (e : Nat) (p : List Nat) (sender : Nat)
    (hacc : (submitResponse A σ id e p sender).1 = none) :
    ∃ ev, A.fromExternal e p = some ev ∧
      ((submitResponse A σ id e p sender).2.surveys id).encryptedResponse =
        (if (σ.surveys id).participantCount = 0 then ev
         else A.add (σ.surveys id).encryptedResponse ev) ∧
      ((submitResponse A σ id e p sender).2.surveys id).participantCount =
        (σ.surveys id).participantCount + 1 ∧
      (submitResponse A σ id e p sender).2.hasResponded id sender = true := by
  by_cases h1 : (σ.surveys id).title = ""
  · simp [submitResponse, h1] at hacc
  · by_cases h2 : (σ.surveys id).isActive = false
    · simp [submitResponse, h1, h2] at hacc
    · by_cases h3 : σ.hasResponded id sender = true
      · simp [submitResponse, h1, h2, h3] at hacc
      · cases hfe : A.fromExternal e p with
        | none => simp [submitResponse, h1, h2, h3, hfe] at hacc
        | some ev =>
          refine ⟨ev, rfl, ?_, ?_, ?_⟩ <;> simp [submitResponse, h1, h2, h3, hfe]

/-- Claim C4 (witness): the first accepted submission on the concrete trace
stores the validated ciphertext, flags the sender and bumps the count. -/
theorem submitResponse_accumulates_instance :
    ∃ ev, natFHE.fromExternal 5 [1] = some ev ∧
      ((submitResponse natFHE trState1 "s" 5 [1] 7).2.surveys "s").encryptedResponse =
        (if (trState1.surveys "s").participantCount = 0 then ev
         else natFHE.add (trState1.surveys "s").encryptedResponse ev) ∧
      ((submitResponse natFHE trState1 "s" 5 [1] 7).2.surveys "s").participantCount =
        (trState1.surveys "s").participantCount + 1 ∧
      (submitResponse natFHE trState1 "s" 5 [1] 7).2.hasResponded "s" 7 = true :=
  submitResponse_accumulates natFHE trState1 "s" 5 [1] 7 (by decide)

/-- A state holding one active survey whose participant count is `2 ^ 32`
(reachable after that many distinct-principal submissions; addresses are
160-bit so such a population exists). -/
def bigState : ContractState Nat :=
  (initialState natFHE).setSurvey "s"
    { title := "t", encryptedResponse := 5, participantCount := 2 ^ 32,
      questionCount := 1, creator := 7, createdAt := 0, isActive := true }

/-- Claim C3 (counterexample): `aggregateResults` stores
`uint32(participantCount)`, a truncating cast, so at participant count
`2 ^ 32` the stored `count` is `0`, not the participant count at the moment
aggregation was triggered. -/
theorem aggregateResults_count_truncates :
    (bigState.surveys "s").participantCount = 4294967296 ∧
    (aggregateResults natFHE bigState "s").1 = none ∧
    ((aggregateResults natFHE bigState "s").2.results "s").count = 0 ∧
    ((aggregateResults natFHE bigState "s").2.results "s").count ≠
      (bigState.surveys "s").participantCount := by decide

/-- Claim C3 (amended): `aggregateResults` fails with `NotFound` iff the
survey is unknown, `Inactive` iff it exists but is deactivated,
`NoResponses` iff it is active with zero participants, `AlreadyVerified`
iff a verified result already exists; on success it overwrites the result
record with the claimed sum, the participant count reduced `% 2 ^ 32` (equal
to the participant count whenever it is below `2 ^ 32`), and
`isVerified=false`, touching nothing else. -/
theorem aggregateResults_characterization {Ct : Type} (A : FHEAdapter Ct)
    (σ : ContractState Ct) (id : String) :
    ((aggregateResults A σ id).1 = some Err.NotFound ↔ (σ.surveys id).title = "") ∧
    ((aggregateResults A σ id).1 = some Err.Inactive ↔
      (σ.surveys id).title ≠ "" ∧ (σ.surveys id).isActive = false) ∧
    ((aggregateResults A σ id).1 = some Err.NoResponses ↔
      (σ.surveys id).title ≠ "" ∧ (σ.surveys id).isActive = true ∧
      (σ.surveys id).participantCount = 0) ∧
    ((aggregateResults A σ id).1 = some Err.AlreadyVerified ↔
      (σ.surveys id).title ≠ "" ∧ (σ.surveys id).isActive = true ∧
      (σ.surveys id).participantCount ≠ 0 ∧ (σ.results id).isVerified = true) ∧
    ((aggregateResults A σ id).1 = none ↔
      (σ.surveys id).title ≠ "" ∧ (σ.surveys id).isActive = true ∧
      (σ.surveys id).participantCount ≠ 0 ∧ (σ.results id).isVerified = false) ∧
    ((aggregateResults A σ id).1 = none →
      (aggregateResults A σ id).2.results id =
        { sum := A.decrypt (σ.surveys id).encryptedResponse,
          count := (σ.surveys id).participantCount % 2 ^ 32,
          isVerified := false } ∧
      (aggregateResults A σ id).2.surveys = σ.surveys ∧
      (aggregateResults A σ id).2.hasResponded = σ.hasResponded ∧
      (∀ k, k ≠ id → (aggregateResults A σ id).2.results k = σ.results k)) := by
  by_cases h1 : (σ.surveys id).title = ""
  · simp [aggregateResults, h1]
  · by_cases h2 : (σ.surveys id).isActive = false
    · simp [aggregateResults, h1, h2]
    · by_cases h3 : (σ.surveys id).participantCount = 0
      · simp [aggregateResults, h1, h2, h3]
      · by_cases h4 : (σ.results id).isVerified = true
        · simp [aggregateResults, h1, h2, h3, h4]
        · simp [aggregateResults, h1, h2, h3, h4]
          intro k hk hk2
          exact absurd hk2 hk

/-- Claim C3 (witness): the amended characterization at the concrete
post-submission trace state: aggregation succeeds and stores the claimed
sum with the (non-truncated here) participant count. -/
theorem aggregateResults_characterization_instance :
    (aggregateResults natFHE trState2 "s").1 = none ∧
    (aggregateResults natFHE trState2 "s").2.results "s" =
      { sum := natFHE.decrypt (trState2.surveys "s").encryptedResponse,
        count := (trState2.surveys "s").participantCount % 2 ^ 32,
        isVerified := false } := by
  have h := aggregateResults_characterization natFHE trState2 "s"
  have hnone : (aggregateResults natFHE trState2 "s").1 = none :=
    h.2.2.2.2.1.mpr (by decide)
  exact ⟨hnone, (h.2.2.2.2.2 hnone).1⟩

/-- Claim C2: on an existing, not-yet-verified survey, `verifyResults`
fails with `ProofInvalid` iff the adapter's decryption-proof check against
the current accumulator fails; given a passing check it fails with
`MismatchedClaim` iff the decoded clear value differs from the stored
claimed sum; and when both pass it succeeds, sets the result verified and
deactivates the survey. -/
theorem verifyResults_characterization {Ct : Type} (A : FHEAdapter Ct)
    (σ : ContractState Ct) (id : String) (clear proof : List Nat)
    (hex : (σ.surveys id).title ≠ "") (hnv : (σ.results id).isVerified = false) :
    ((verifyResults A σ id clear proof).1 = some Err.ProofInvalid ↔
      A.checkSignatures (σ.surveys id).encryptedResponse clear proof = false) ∧
    (A.checkSignatures (σ.surveys id).encryptedResponse clear proof = true →
      ((verifyResults A σ id clear proof).1 = some Err.MismatchedClaim ↔
        A.decodeU32 clear ≠ (σ.results id).sum)) ∧
    (A.checkSignatures (σ.surveys id).encryptedResponse clear proof = true →
      A.decodeU32 clear = (σ.results id).sum →
      (verifyResults A σ id clear proof).1 = none ∧
      ((verifyResults A σ id clear proof).2.results id).isVerified = true ∧
      ((verifyResults A σ id clear proof).2.surveys id).isActive = false) := by
  by_cases hcs : A.checkSignatures (σ.surveys id).encryptedResponse clear proof = false
  · simp [verifyResults, hex, hnv, hcs]
  · by_cases hdec : A.decodeU32 clear = (σ.results id).sum
    · simp [verifyResults, hex, hnv, hcs, hdec]
    · simp [verifyResults, hex, hnv, hcs, hdec]

/-- Claim C2 (witness): concrete successful verification at the
post-aggregation trace state. -/
theorem verifyResults_characterization_instance :
    (verifyResults natFHE trState3 "s" [5] [1]).1 = none ∧
    ((verifyResults natFHE trState3 "s" [5] [1]).2.results "s").isVerified = true ∧
    ((verifyResults natFHE trState3 "s" [5] [1]).2.surveys "s").isActive = false := by
  have h := verifyResults_characterization natFHE trState3 "s" [5] [1]
    (by decide) (by decide)
  exact h.2.2 (by decide) (by decide)

/-- Safety invariant: a verified aggregation record only ever exists for a
stored survey (nonempty title) that has been deactivated. -/
def VerifiedInv (σ : ContractState Ct) : Prop :=
  ∀ id, (σ.results id).isVerified = true →
    (σ.surveys id).title ≠ "" ∧ (σ.surveys id).isActive = false

theorem verifiedInv_init (A : FHEAdapter Ct) : VerifiedInv (initialState A) := by
  intro id h
  simp [initialState] at h

theorem create_preserves_verifiedInv (A : FHEAdapter Ct) (σ : ContractState Ct)
    (id title : String) (qc sender ts : Nat) (hI : VerifiedInv σ) :
    VerifiedInv (createSurvey A σ id title qc sender ts).2 := by
  intro k hk
  by_cases h1 : (σ.surveys id).title = ""
  · simp [createSurvey, h1] at hk ⊢
    rcases hI k hk with ⟨ht, ha⟩
    by_cases hkid : k = id
    · exact absurd h1 (hkid ▸ ht)
    · simp [hkid]
      exact ⟨ht, ha⟩
  · simp [createSurvey, h1] at hk ⊢
    exact hI k hk

theorem submit_preserves_verifiedInv (A : FHEAdapter Ct) (σ : ContractState Ct)
    (id : String) (e : Nat) (p : List Nat) (sender : Nat) (hI : VerifiedInv σ) :
    VerifiedInv (submitResponse A σ id e p sender).2 := by
  intro k hk
  by_cases h1 : (σ.surveys id).title = ""
  · simp [submitResponse, h1] at hk ⊢
    exact hI k hk
  · by_cases h2 : (σ.surveys id).isActive = false
    · simp [submitResponse, h1, h2] at hk ⊢
      exact hI k hk
    · by_cases h3 : σ.hasResponded id sender = true
      · simp [submitResponse, h1, h2, h3] at hk ⊢
        exact hI k hk
      · cases hfe : A.fromExternal e p with
        | none =>
          simp [submitResponse, h1, h2, h3, hfe] at hk ⊢
          exact hI k hk
        | some ev =>
          simp [submitResponse, h1, h2, h3, hfe] at hk ⊢
          rcases hI k hk with ⟨ht, ha⟩
          by_cases hkid : k = id
          · exact absurd (hkid ▸ ha) h2
          · simp [hkid]
            exact ⟨ht, ha⟩

theorem aggregate_preserves_verifiedInv (A : FHEAdapter Ct) (σ : ContractState Ct)
    (id : String) (hI : VerifiedInv σ) :
    VerifiedInv (aggregateResults A σ id).2 := by
  intro k hk
  by_cases h1 : (σ.surveys id).title = ""
  · simp [aggregateResults, h1] at hk ⊢
    exact hI k hk
  · by_cases h2 : (σ.surveys id).isActive = false
    · simp [aggregateResults, h1, h2] at hk ⊢
      exact hI k hk
    · by_cases h3 : (σ.surveys id).participantCount = 0
      · simp [aggregateResults, h1, h2, h3] at hk ⊢
        exact hI k hk
      · by_cases h4 : (σ.results id).isVerified = true
        · simp [aggregateResults, h1, h2, h3, h4] at hk ⊢
          exact hI k hk
        · simp [aggregateResults, h1, h2, h3, h4] at hk ⊢
          by_cases hkid : k = id
          · simp [hkid] at hk
          · simp [hkid] at hk
            exact hI k hk

theorem verify_preserves_verifiedInv (A : FHEAdapter Ct) (σ : ContractState Ct)
    (id : String) (clear proof : List Nat) (hI : VerifiedInv σ) :
    VerifiedInv (verifyResults A σ id clear proof).2 := by
  intro k hk
  by_cases h1 : (σ.surveys id).title = ""
  · simp [verifyResults, h1] at hk ⊢
    exact hI k hk
  · by_cases h2 : (σ.results id).isVerified = true
    · simp [verifyResults, h1, h2] at hk ⊢
      exact hI k hk
    · by_cases h3 : A.checkSignatures (σ.surveys id).encryptedResponse clear proof = false
      · simp [verifyResults, h1, h2, h3] at hk ⊢
        exact hI k hk
      · by_cases h4 : A.decodeU32 clear = (σ.results id).sum
        · simp [verifyResults, h1, h2, h3, h4] at hk ⊢
          by_cases hkid : k = id
          · simp [hkid]
            exact h1
          · simp [hkid] at hk ⊢
            exact hI k hk
        · simp [verifyResults, h1, h2, h3, h4] at hk ⊢
          exact hI k hk

theorem step_preserves_verifiedInv {A : FHEAdapter Ct} {σ σ' : ContractState Ct}
    (hs : Step A σ σ') (hI : VerifiedInv σ) : VerifiedInv σ' := by
  cases hs with
  | create id title qc sender ts => exact create_preserves_verifiedInv A σ id title qc sender ts hI
  | submit id e p sender => exact submit_preserves_verifiedInv A σ id e p sender hI
  | aggregate id => exact aggregate_preserves_verifiedInv A σ id hI
  | verify id clear proof => exact verify_preserves_verifiedInv A σ id clear proof hI

theorem reachable_verifiedInv {A : FHEAdapter Ct} {σ : ContractState Ct}
    (h : Reachable A σ) : VerifiedInv σ := by
  induction h with
  | init => exact verifiedInv_init A
  | step _ hs ih => exact step_preserves_verifiedInv hs ih

/-- Once verified, the flag survives any further transaction. -/
theorem step_preserves_verified {A : FHEAdapter Ct} {σ σ' : ContractState Ct}
    (hs : Step A σ σ') (id : String)
    (hv : (σ.results id).isVerified = true) : (σ'.results id).isVerified = true := by
  cases hs with
  | create id0 title qc sender ts =>
    unfold createSurvey
    split
    · exact hv
    · simpa using hv
  | submit id0 e p sender =>
    unfold submitResponse
    split
    · exact hv
    · split
      · exact hv
      · split
        · exact hv
        · split
          · exact hv
          · simpa using hv
  | aggregate id0 =>
    by_cases h1 : (σ.surveys id0).title = ""
    · simpa [aggregateResults, h1] using hv
    · by_cases h2 : (σ.surveys id0).isActive = false
      · simpa [aggregateResults, h1, h2] using hv
      · by_cases h3 : (σ.surveys id0).participantCount = 0
        · simpa [aggregateResults, h1, h2, h3] using hv
        · by_cases h4 : (σ.results id0).isVerified = true
          · simpa [aggregateResults, h1, h2, h3, h4] using hv
          · by_cases hkid : id = id0
            · exact absurd (hkid ▸ hv) h4
            · simpa [aggregateResults, h1, h2, h3, h4, hkid] using hv
  | verify id0 clear proof =>
    by_cases h1 : (σ.surveys id0).title = ""
    · simpa [verifyResults, h1] using hv
    · by_cases h2 : (σ.results id0).isVerified = true
      · simpa [verifyResults, h1, h2] using hv
      · by_cases h3 : A.checkSignatures (σ.surveys id0).encryptedResponse clear proof = false
        · simpa [verifyResults, h1, h2, h3] using hv
        · by_cases h4 : A.decodeU32 clear = (σ.results id0).sum
          · by_cases hkid : id = id0
            · simp [verifyResults, h1, h2, h3, h4, hkid]
            · simpa [verifyResults, h1, h2, h3, h4, hkid] using hv
          · simpa [verifyResults, h1, h2, h3, h4] using hv

/-- Claim C6: in every reachable state, a verified result implies the survey
is deactivated, further submissions fail with `Inactive`, aggregation fails,
verification fails with `AlreadyVerified`, and the verified flag survives
every further transaction — verification is terminal and never reverts. -/
theorem verified_terminal {Ct : Type} (A : FHEAdapter Ct) (σ : ContractState Ct)
    (hr : Reachable A σ) (id : String)
    (hv : (σ.results id).isVerified = true) :
    (σ.surveys id).isActive = false ∧
    (∀ e p sender, (submitResponse A σ id e p sender).1 = some Err.Inactive) ∧
    (aggregateResults A σ id).1.isSome = true ∧
    (∀ clear proof, (verifyResults A σ id clear proof).1 = some Err.AlreadyVerified) ∧
    (∀ σ', Step A σ σ' → (σ'.results id).isVerified = true) := by
  obtain ⟨ht, ha⟩ := reachable_verifiedInv hr id hv
  refine ⟨ha, ?_, ?_, ?_, ?_⟩
  · intro e p sender
    simp [submitResponse, ht, ha]
  · simp [aggregateResults, ht, ha]
  · intro clear proof
    simp [verifyResults, ht, hv]
  · intro σ' hs
    exact step_preserves_verified hs id hv

/-- Claim C6 (witness): the concrete four-step trace reaches a verified
state, where the terminality conclusions hold concretely. -/
theorem verified_terminal_instance :
    (trState4.surveys "s").isActive = false ∧
    (submitResponse natFHE trState4 "s" 9 [1] 8).1 = some Err.Inactive ∧
    (aggregateResults natFHE trState4 "s").1.isSome = true ∧
    (verifyResults natFHE trState4 "s" [5] [1]).1 = some Err.AlreadyVerified := by
  have hreach : Reachable natFHE trState4 :=
    Reachable.step
      (Reachable.step
        (Reachable.step
          (Reachable.step Reachable.init
            (Step.create (initialState natFHE) "s" "t" 1 7 0))
          (Step.submit trState1 "s" 5 [1] 7))
        (Step.aggregate trState2 "s"))
      (Step.verify trState3 "s" [5] [1])
  have h := verified_terminal natFHE trState4 hreach "s" (by decide)
  exact ⟨h.1, h.2.1 9 [1] 8, h.2.2.1, h.2.2.2.1 [5] [1]⟩

/-- Claim C5 (counterexample): after a survey is finalized, a repeat
submission by a principal who already responded fails with `Inactive`
(the activity check precedes the duplicate check), not
`DuplicateResponse`. -/
theorem second_submit_after_finalize_not_duplicate :
    (submitResponse natFHE trState1 "s" 5 [1] 7).1 = none ∧
    trState4.hasResponded "s" 7 = true ∧
    (submitResponse natFHE trState4 "s" 9 [1] 7).1 = some Err.Inactive ∧
    (submitResponse natFHE trState4 "s" 9 [1] 7).1 ≠ some Err.DuplicateResponse := by
  decide

/-- Claim C5 (amended): an accepted submission marks the sender as having
responded, the flag survives every further transaction, and any later
submission by the same principal to the same survey is rejected with the
state (hence `participantCount`) unchanged — with `DuplicateResponse`
while the survey exists and is active, `Inactive`/`NotFound` taking
precedence otherwise.  A principal can never have two accepted responses. -/
theorem no_double_response {Ct : Type} (A : FHEAdapter Ct) :
    (∀ σ : ContractState Ct, ∀ id e p sender,
      (submitResponse A σ id e p sender).1 = none →
      (submitResponse A σ id e p sender).2.hasResponded id sender = true) ∧
    (∀ σ σ' : ContractState Ct, Step A σ σ' → ∀ id pr,
      σ.hasResponded id pr = true → σ'.hasResponded id pr = true) ∧
    (∀ σ : ContractState Ct, ∀ id e p sender,
      σ.hasResponded id sender = true →
      (submitResponse A σ id e p sender).1.isSome = true ∧
      (submitResponse A σ id e p sender).2 = σ ∧
      ((σ.surveys id).title ≠ "" → (σ.surveys id).isActive = true →
        (submitResponse A σ id e p sender).1 = some Err.DuplicateResponse)) := by
  refine ⟨?_, ?_, ?_⟩
  · intro σ id e p sender hacc
    by_cases h1 : (σ.surveys id).title = ""
    · simp [submitResponse, h1] at hacc
    · by_cases h2 : (σ.surveys id).isActive = false
      · simp [submitResponse, h1, h2] at hacc
      · by_cases h3 : σ.hasResponded id sender = true
        · simp [submitResponse, h1, h2, h3] at hacc
        · cases hfe : A.fromExternal e p with
          | none => simp [submitResponse, h1, h2, h3, hfe] at hacc
          | some ev => simp [submitResponse, h1, h2, h3, hfe]
  · intro σ σ' hs id pr hpr
    cases hs with
    | create id0 title qc sender ts =>
      unfold createSurvey
      split
      · exact hpr
      · simpa using hpr
    | submit id0 e0 p0 sender0 =>
      by_cases h1 : (σ.surveys id0).title = ""
      · simpa [submitResponse, h1] using hpr
      · by_cases h2 : (σ.surveys id0).isActive = false
        · simpa [submitResponse, h1, h2] using hpr
        · by_cases h3 : σ.hasResponded id0 sender0 = true
          · simpa [submitResponse, h1, h2, h3] using hpr
          · cases hfe : A.fromExternal e0 p0 with
            | none => simpa [submitResponse, h1, h2, h3, hfe] using hpr
            | some ev => simp [submitResponse, h1, h2, h3, hfe, hpr]
    | aggregate id0 =>
      unfold aggregateResults
      split_ifs <;> simpa using hpr
    | verify id0 clear proof =>
      unfold verifyResults
      split_ifs <;> simpa using hpr
  · intro σ id e p sender hdup
    by_cases h1 : (σ.surveys id).title = ""
    · exact ⟨by simp [submitResponse, h1], by simp [submitResponse, h1],
        fun ht _ => absurd h1 ht⟩
    · by_cases h2 : (σ.surveys id).isActive = false
      · exact ⟨by simp [submitResponse, h1, h2], by simp [submitResponse, h1, h2],
          fun _ hact => by simp [hact] at h2⟩
      · exact ⟨by simp [submitResponse, h1, h2, hdup],
          by simp [submitResponse, h1, h2, hdup],
          fun _ _ => by simp [submitResponse, h1, h2, hdup]⟩

/-- Claim C5 (witness): on the concrete trace, principal 7's first
submission is flagged and an immediate retry is rejected with
`DuplicateResponse` leaving the state untouched. -/
theorem no_double_response_instance :
    (submitResponse natFHE trState1 "s" 5 [1] 7).2.hasResponded "s" 7 = true ∧
    (submitResponse natFHE trState2 "s" 9 [1] 7).1 = some Err.DuplicateResponse ∧
    (submitResponse natFHE trState2 "s" 9 [1] 7).2 = trState2 := by
  have h := no_double_response natFHE
  exact ⟨h.1 trState1 "s" 5 [1] 7 (by decide),
    (h.2.2 trState2 "s" 9 [1] 7 (by decide)).2.2 (by decide) (by decide),
    (h.2.2 trState2 "s" 9 [1] 7 (by decide)).2.1⟩

/-- Claim C8: a reachable state exists where aggregation has succeeded,
the survey is still active, and a fresh principal's submission is still
accepted and changes the accumulator the recorded claim was computed
against — aggregation does not freeze response acceptance. -/
theorem response_accepted_between_aggregate_and_verify :
    Reachable natFHE trState3 ∧
    (aggregateResults natFHE trState2 "s").1 = none ∧
    (trState3.surveys "s").isActive = true ∧
    trState3.results "s" = { sum := 5, count := 1, isVerified := false } ∧
    (submitResponse natFHE trState3 "s" 3 [1] 8).1 = none ∧
    ((submitResponse natFHE trState3 "s" 3 [1] 8).2.surveys "s").encryptedResponse ≠
      (trState3.surveys "s").encryptedResponse := by
  refine ⟨?_, by decide, by decide, by decide, by decide, by decide⟩
  exact Reachable.step
    (Reachable.step
      (Reachable.step Reachable.init (Step.create (initialState natFHE) "s" "t" 1 7 0))
      (Step.submit trState1 "s" 5 [1] 7))
    (Step.aggregate trState2 "s")

/-- Claim C9 (counterexample): `hasUserResponded` performs no existence
check: for an unknown survey it returns the mapping default `false`
instead of failing with `NotFound` (as `getSurvey` does on the same
input). -/
theorem hasResponded_query_ignores_existence :
    getSurvey (initialState natFHE) "s" = .error Err.NotFound ∧
    hasUserResponded (initialState natFHE) "s" 7 = false :=
  ⟨rfl, rfl⟩

/-- Claim C9 (amended): the queries are pure functions of the state (no
side effects); `getSurvey` and `getResults` fail with `NotFound` exactly
when the survey is unknown and otherwise return the committed snapshot of
the survey record and aggregation result, while `hasUserResponded` never
fails and returns the stored participation flag (default `false`). -/
theorem query_characterization {Ct : Type} (σ : ContractState Ct)
    (id : String) (user : Nat) :
    (getSurvey σ id = .error Err.NotFound ↔ (σ.surveys id).title = "") ∧
    (getResults σ id = .error Err.NotFound ↔ (σ.surveys id).title = "") ∧
    ((σ.surveys id).title ≠ "" →
      getSurvey σ id = .ok ((σ.surveys id).title, (σ.surveys id).participantCount,
        (σ.surveys id).questionCount, (σ.surveys id).creator,
        (σ.surveys id).createdAt, (σ.surveys id).isActive) ∧
      getResults σ id = .ok ((σ.results id).sum, (σ.results id).count,
        (σ.results id).isVerified)) ∧
    hasUserResponded σ id user = σ.hasResponded id user := by
  by_cases h : (σ.surveys id).title = ""
  · exact ⟨by simp [getSurvey, h], by simp [getResults, h],
      fun hc => absurd h hc, rfl⟩
  · exact ⟨by simp [getSurvey, h], by simp [getResults, h],
      fun _ => ⟨by simp [getSurvey, h], by simp [getResults, h]⟩, rfl⟩

/-- Claim C9 (witness): snapshot reads on the concrete post-creation
state. -/
theorem query_characterization_instance :
    getSurvey trState1 "s" = .ok ((trState1.surveys "s").title,
      (trState1.surveys "s").participantCount, (trState1.surveys "s").questionCount,
      (trState1.surveys "s").creator, (trState1.surveys "s").createdAt,
      (trState1.surveys "s").isActive) ∧
    getResults trState1 "s" = .ok ((trState1.results "s").sum,
      (trState1.results "s").count, (trState1.results "s").isVerified) :=
  (query_characterization trState1 "s" 7).2.2.1 (by decide)

/-- Claim C10: `verifyResults` does not require a prior aggregation: on a
freshly created survey the stored result is the default
`(sum 0, count 0, unverified)`, and a proof certifying plaintext `0` for
the zero accumulator handle makes verification succeed, finalizing the
survey with sum 0 and count 0. -/
theorem verify_without_aggregate_succeeds :
    trState1.results "s" = { sum := 0, count := 0, isVerified := false } ∧
    (verifyResults natFHE trState1 "s" [0] [1]).1 = none ∧
    (verifyResults natFHE trState1 "s" [0] [1]).2.results "s" =
      { sum := 0, count := 0, isVerified := true } ∧
    ((verifyResults natFHE trState1 "s" [0] [1]).2.surveys "s").isActive = false := by
  decide

end SurveyChain
